import Mathlib

/-!
Verification of the HomuncuLLM prompt-relay service (src/main.go).

The Go program is a minimal HTTP relay: it accepts `POST /api/complete`
with a JSON body `{prompt, model}`, forwards the prompt to an upstream
Ollama-style inference server via `GetCompletion`, and returns the
generated text.  We shallowly embed the program as pure Lean functions.

External library effects (the `encoding/json` marshaller/decoder and the
`net/http` POST) are abstracted as an `Env` of pure functions; the single
side effect of `GetCompletion` — the outbound HTTP POST — is made
observable as an explicit list of `UpstreamCall`s, and the pointer
receiver's state is threaded through explicitly so that frame conditions
are expressible.
-/

/-- The request structure for the Ollama API (`OllamaRequest` in src/main.go):
serialized to the upstream call body as `{"model":…,"prompt":…}`. -/
structure OllamaRequest where
  model : String
  prompt : String
deriving Repr, DecidableEq

/-- The response from the Ollama API (`OllamaResponse` in src/main.go):
deserialized from the upstream 200 body; only `response` is consumed. -/
structure OllamaResponse where
  model : String
  created_at : String
  response : String
deriving Repr, DecidableEq

/-- The public API's request structure (`PromptRequest` in src/main.go).
`prompt` carries the Gin binding tag `required`; `model` is optional.
A field absent from the inbound JSON is the Go zero value `""`. -/
structure PromptRequest where
  prompt : String
  model : String
deriving Repr, DecidableEq

/-- The public API's response structure (`PromptResponse` in src/main.go). -/
structure PromptResponse where
  response : String
  model : String
  time : String
deriving Repr, DecidableEq

/-- The `http.Client` held by the service; only its configuration (the fixed
timeout, in seconds: `60 * time.Second`) is relevant to the embedding. -/
structure HttpClient where
  timeoutSeconds : Nat
deriving Repr, DecidableEq

/-- `LLMService` from src/main.go: the relay's immutable configuration. -/
structure LLMService where
  ollamaURL : String
  httpClient : HttpClient
  defaultModel : String
deriving Repr, DecidableEq

/-- `NewLLMService` from src/main.go: builds a service with a 60-second
client timeout. -/
def NewLLMService (ollamaURL : String) (defaultModel : String) : LLMService :=
  { ollamaURL := ollamaURL
    httpClient := { timeoutSeconds := 60 }
    defaultModel := defaultModel }

/-- Outcome of `http.Client.Post`: either a transport error (connection
refused, DNS failure, timeout — the Go `err != nil` branch) or an HTTP
response with a status code and a body (read as a string). -/
inductive PostResult where
  | transportErr (msg : String)
  | resp (statusCode : Nat) (body : String)
deriving Repr, DecidableEq

/-- One outbound HTTP POST as performed by `GetCompletion`:
destination URL, content type, and the serialized request body. -/
structure UpstreamCall where
  url : String
  contentType : String
  body : String
deriving Repr, DecidableEq

/-- The external world `GetCompletion` runs against: `json.Marshal` and
`json.Decode` from `encoding/json`, and the HTTP POST from `net/http`.
All three are opaque library calls in the Go source, so they are
parameters of the embedding. -/
structure Env where
  marshal : OllamaRequest → Except String String
  post : String → String → String → PostResult
  decode : String → Except String OllamaResponse

/-- Result of a `GetCompletion` call.  `text`/`err` are the Go return
values `(string, error)` (`err = none` is a nil error); `sAfter` is the
pointer receiver's state when the call returns; `calls` is the list of
outbound HTTP POSTs the call performed, in order. -/
structure CompletionOutcome where
  text : String
  err : Option String
  sAfter : LLMService
  calls : List UpstreamCall
deriving Repr, DecidableEq

/-- `GetCompletion` from src/main.go, line by line:
substitute the default model when `model == ""`; marshal the
`OllamaRequest`; POST it to `ollamaURL + "/api/generate"` with content
type `application/json`; on non-200 return the status-and-body error; on
200 decode the body and return its `response` field with a nil error. -/
def GetCompletion (env : Env) (s : LLMService) (prompt : String) (model : String) :
    CompletionOutcome :=
  let model := if model = "" then s.defaultModel else model
  match env.marshal { model := model, prompt := prompt } with
  | Except.error e =>
      { text := "", err := some ("failed to marshal request: " ++ e)
        sAfter := s, calls := [] }
  | Except.ok reqBody =>
      let call : UpstreamCall :=
        { url := s.ollamaURL ++ "/api/generate"
          contentType := "application/json"
          body := reqBody }
      match env.post call.url call.contentType call.body with
      | PostResult.transportErr e =>
          { text := "", err := some ("ollama request failed: " ++ e)
            sAfter := s, calls := [call] }
      | PostResult.resp statusCode body =>
          if statusCode ≠ 200 then
            { text := ""
              err := some ("ollama returned status " ++ toString statusCode ++ ": " ++ body)
              sAfter := s, calls := [call] }
          else
            match env.decode body with
            | Except.error e =>
                { text := "", err := some ("failed to decode ollama response: " ++ e)
                  sAfter := s, calls := [call] }
            | Except.ok ollamaResp =>
                { text := ollamaResp.response, err := none
                  sAfter := s, calls := [call] }

/-- One JSON response body emitted by the Gin handlers in src/main.go:
`gin.H{"error": …}`, a `PromptResponse`, the health object
`gin.H{"status": "healthy"}`, or no body at all (the 204 preflight
answer and the framework's default not-found reply). -/
inductive RespBody where
  | errObj (msg : String)
  | promptResp (r : PromptResponse)
  | statusObj (status : String)
  | empty
deriving Repr, DecidableEq

/-- An HTTP response as produced by the server: status code, headers set
on the writer, and the JSON body. -/
structure HttpResponse where
  status : Nat
  headers : List (String × String)
  body : RespBody
deriving Repr, DecidableEq

/-- An inbound HTTP request.  `parsed` is the result of decoding the raw
request body into a `PromptRequest` (`none` when the body is not valid
JSON for that shape; absent fields decode to `""`). -/
structure HttpRequest where
  method : String
  path : String
  parsed : Option PromptRequest
deriving Repr, DecidableEq

/-- Gin's `ShouldBindJSON` on a `PromptRequest` target: JSON decoding
followed by validation of the `binding:"required"` tag on `Prompt`,
which rejects the zero value `""` (so a missing or empty prompt fails). -/
def ShouldBindJSON (parsed : Option PromptRequest) : Except String PromptRequest :=
  match parsed with
  | none => Except.error "invalid request"
  | some req =>
      if req.prompt = "" then
        Except.error "Field validation for Prompt failed on the required tag"
      else
        Except.ok req

/-- The three permissive cross-origin headers set by the CORS middleware
in src/main.go on every request before routing. -/
def corsHeaders : List (String × String) :=
  [("Access-Control-Allow-Origin", "*"),
   ("Access-Control-Allow-Methods", "POST, GET, OPTIONS"),
   ("Access-Control-Allow-Headers", "Content-Type, Content-Length, Accept-Encoding, Authorization")]

/-- The `POST /api/complete` handler from src/main.go: bind and validate
the inbound body (failure → 400 with the error message), call
`GetCompletion`, map its error to a 500 envelope, and on success answer
200 with `{response, model: req.Model, time}`.  `elapsed` stands for the
wall-clock duration string `time.Since(startTime).String()`. -/
def completeHandler (env : Env) (s : LLMService) (elapsed : String)
    (parsed : Option PromptRequest) : HttpResponse × List UpstreamCall :=
  match ShouldBindJSON parsed with
  | Except.error e => ({ status := 400, headers := [], body := RespBody.errObj e }, [])
  | Except.ok req =>
      let out := GetCompletion env s req.prompt req.model
      match out.err with
      | some e => ({ status := 500, headers := [], body := RespBody.errObj e }, out.calls)
      | none =>
          ({ status := 200, headers := []
             body := RespBody.promptResp
               { response := out.text, model := req.model, time := elapsed } },
           out.calls)

/-- The `GET /health` handler from src/main.go:
`c.JSON(http.StatusOK, gin.H{"status": "healthy"})`. -/
def healthHandler : HttpResponse × List UpstreamCall :=
  ({ status := 200, headers := [], body := RespBody.statusObj "healthy" }, [])

/-- One request through the server from src/main.go: the CORS middleware
sets the three permissive headers, answers any `OPTIONS` request with an
empty 204 (aborting the chain), and otherwise routing dispatches to the
`POST /api/complete` or `GET /health` handler (anything else gets the
framework's 404).  The second component lists the upstream calls made. -/
def serveHTTP (env : Env) (s : LLMService) (elapsed : String)
    (req : HttpRequest) : HttpResponse × List UpstreamCall :=
  if req.method = "OPTIONS" then
    ({ status := 204, headers := corsHeaders, body := RespBody.empty }, [])
  else
    let routed :=
      if req.method = "POST" ∧ req.path = "/api/complete" then
        completeHandler env s elapsed req.parsed
      else if req.method = "GET" ∧ req.path = "/health" then
        healthHandler
      else
        ({ status := 404, headers := [], body := RespBody.empty }, [])
    ({ status := routed.1.status, headers := corsHeaders, body := routed.1.body },
     routed.2)

/-- Claim C1: for every prompt and model, if the upstream call returns
HTTP 200 with a JSON body that decodes to an `OllamaResponse` (a
`response` string field), then `GetCompletion` returns exactly that
string, unaltered, and a nil error. -/
theorem getCompletion_returns_response_verbatim
    (env : Env) (s : LLMService) (prompt model reqBody respBody : String)
    (r : OllamaResponse)
    (hm : env.marshal { model := if model = "" then s.defaultModel else model,
                        prompt := prompt } = Except.ok reqBody)
    (hp : env.post (s.ollamaURL ++ "/api/generate") "application/json" reqBody
            = PostResult.resp 200 respBody)
    (hd : env.decode respBody = Except.ok r) :
    (GetCompletion env s prompt model).text = r.response ∧
    (GetCompletion env s prompt model).err = none := by
  unfold GetCompletion
  simp [hm, hp, hd]

/-- Concrete run of `getCompletion_returns_response_verbatim`: a stub
upstream answering 200 with a body decoding to `response = "hi there"`
makes `GetCompletion` return `"hi there"` with a nil error. -/
theorem getCompletion_returns_response_verbatim_witness :
    (GetCompletion
        { marshal := fun _ => Except.ok "REQ"
          post := fun _ _ _ => PostResult.resp 200 "RESP"
          decode := fun _ =>
            Except.ok { model := "llama2", created_at := "t", response := "hi there" } }
        (NewLLMService "http://localhost:11434" "llama2") "hello" "").text = "hi there" ∧
    (GetCompletion
        { marshal := fun _ => Except.ok "REQ"
          post := fun _ _ _ => PostResult.resp 200 "RESP"
          decode := fun _ =>
            Except.ok { model := "llama2", created_at := "t", response := "hi there" } }
        (NewLLMService "http://localhost:11434" "llama2") "hello" "").err = none :=
  getCompletion_returns_response_verbatim
    { marshal := fun _ => Except.ok "REQ"
      post := fun _ _ _ => PostResult.resp 200 "RESP"
      decode := fun _ =>
        Except.ok { model := "llama2", created_at := "t", response := "hi there" } }
    (NewLLMService "http://localhost:11434" "llama2") "hello" "" "REQ" "RESP"
    { model := "llama2", created_at := "t", response := "hi there" }
    (by rfl) (by rfl) (by rfl)

/-- Claim C2: the serialized upstream request is the marshalling of an
`OllamaRequest` whose `model` field is the supplied model when non-empty
and the configured default model when the supplied model is `""`, and
the upstream POST is performed exactly once (the call list is a
singleton) with that serialization as its body. -/
theorem getCompletion_serializes_effective_model
    (env : Env) (s : LLMService) (prompt model reqBody : String)
    (hm : env.marshal { model := if model = "" then s.defaultModel else model,
                        prompt := prompt } = Except.ok reqBody) :
    (GetCompletion env s prompt model).calls =
      [{ url := s.ollamaURL ++ "/api/generate"
         contentType := "application/json"
         body := reqBody }] := by
  unfold GetCompletion
  simp only [hm]
  cases env.post (s.ollamaURL ++ "/api/generate") "application/json" reqBody with
  | transportErr e => rfl
  | resp statusCode body =>
      by_cases h : statusCode ≠ 200
      · simp [h]
      · simp only [h, if_false]
        cases env.decode body <;> rfl

/-- Concrete run of `getCompletion_serializes_effective_model`: with
`model = ""` and default `"llama2"`, the marshalled request has
`model = "llama2"` and exactly one POST carries it upstream. -/
theorem getCompletion_serializes_effective_model_witness :
    ({ marshal := fun req => Except.ok (req.model ++ "|" ++ req.prompt)
       post := fun _ _ _ => PostResult.transportErr "connection refused"
       decode := fun _ => Except.error "unreachable" } : Env).marshal
        { model := if "" = "" then (NewLLMService "http://localhost:11434" "llama2").defaultModel
                   else "", prompt := "hello" } = Except.ok "llama2|hello" ∧
    (GetCompletion
        { marshal := fun req => Except.ok (req.model ++ "|" ++ req.prompt)
          post := fun _ _ _ => PostResult.transportErr "connection refused"
          decode := fun _ => Except.error "unreachable" }
        (NewLLMService "http://localhost:11434" "llama2") "hello" "").calls =
      [{ url := "http://localhost:11434" ++ "/api/generate"
         contentType := "application/json"
         body := "llama2|hello" }] :=
  ⟨by rfl,
   getCompletion_serializes_effective_model
    { marshal := fun req => Except.ok (req.model ++ "|" ++ req.prompt)
      post := fun _ _ _ => PostResult.transportErr "connection refused"
      decode := fun _ => Except.error "unreachable" }
    (NewLLMService "http://localhost:11434" "llama2") "hello" "" "llama2|hello"
    (by rfl)⟩

/-- Claim C9: `GetCompletion` never mutates the service state: the
receiver it returns is the very record it was given, in every branch,
including calls where the empty-model default substitution occurs
(that substitution rebinds only the local parameter). -/
theorem getCompletion_preserves_service
    (env : Env) (s : LLMService) (prompt model : String) :
    (GetCompletion env s prompt model).sAfter = s := by
  cases hm : env.marshal { model := if model = "" then s.defaultModel else model,
                           prompt := prompt } with
  | error e => simp [GetCompletion, hm]
  | ok reqBody =>
      cases hp : env.post (s.ollamaURL ++ "/api/generate") "application/json" reqBody with
      | transportErr e => simp [GetCompletion, hm, hp]
      | resp statusCode body =>
          by_cases h : statusCode = 200
          · subst h
            cases hd : env.decode body with
            | error e => simp [GetCompletion, hm, hp, hd]
            | ok r => simp [GetCompletion, hm, hp, hd]
          · simp [GetCompletion, hm, hp, h]

/-- Claim C10: `GetCompletion` is deterministic: with a fixed environment
(upstream response function and JSON library), equal prompt and model
arguments on services with equal configuration fields give equal
text and error results. -/
theorem getCompletion_deterministic
    (env : Env) (s₁ s₂ : LLMService) (prompt₁ prompt₂ model₁ model₂ : String)
    (hURL : s₁.ollamaURL = s₂.ollamaURL)
    (hClient : s₁.httpClient = s₂.httpClient)
    (hDefault : s₁.defaultModel = s₂.defaultModel)
    (hPrompt : prompt₁ = prompt₂) (hModel : model₁ = model₂) :
    (GetCompletion env s₁ prompt₁ model₁).text = (GetCompletion env s₂ prompt₂ model₂).text ∧
    (GetCompletion env s₁ prompt₁ model₁).err = (GetCompletion env s₂ prompt₂ model₂).err := by
  cases s₁
  cases s₂
  simp only at hURL hClient hDefault
  subst hURL hClient hDefault hPrompt hModel
  exact ⟨rfl, rfl⟩

/-- Concrete run of `getCompletion_deterministic`: two identically
configured services produce the same result for the same prompt. -/
theorem getCompletion_deterministic_witness :
    (GetCompletion
        { marshal := fun _ => Except.ok "REQ"
          post := fun _ _ _ => PostResult.resp 200 "RESP"
          decode := fun _ =>
            Except.ok { model := "llama2", created_at := "t", response := "ok" } }
        (NewLLMService "http://localhost:11434" "llama2") "hi" "m").text =
      (GetCompletion
        { marshal := fun _ => Except.ok "REQ"
          post := fun _ _ _ => PostResult.resp 200 "RESP"
          decode := fun _ =>
            Except.ok { model := "llama2", created_at := "t", response := "ok" } }
        { ollamaURL := "http://localhost:11434", httpClient := { timeoutSeconds := 60 }
          defaultModel := "llama2" } "hi" "m").text ∧
    (GetCompletion
        { marshal := fun _ => Except.ok "REQ"
          post := fun _ _ _ => PostResult.resp 200 "RESP"
          decode := fun _ =>
            Except.ok { model := "llama2", created_at := "t", response := "ok" } }
        (NewLLMService "http://localhost:11434" "llama2") "hi" "m").err =
      (GetCompletion
        { marshal := fun _ => Except.ok "REQ"
          post := fun _ _ _ => PostResult.resp 200 "RESP"
          decode := fun _ =>
            Except.ok { model := "llama2", created_at := "t", response := "ok" } }
        { ollamaURL := "http://localhost:11434", httpClient := { timeoutSeconds := 60 }
          defaultModel := "llama2" } "hi" "m").err :=
  getCompletion_deterministic
    { marshal := fun _ => Except.ok "REQ"
      post := fun _ _ _ => PostResult.resp 200 "RESP"
      decode := fun _ =>
        Except.ok { model := "llama2", created_at := "t", response := "ok" } }
    (NewLLMService "http://localhost:11434" "llama2")
    { ollamaURL := "http://localhost:11434", httpClient := { timeoutSeconds := 60 }
      defaultModel := "llama2" } "hi" "hi" "m" "m"
    (by rfl) (by rfl) (by rfl) (by rfl) (by rfl)

/-- Claim C6: every `GET /health` request, whatever the environment
(upstream availability included) and whatever body it carries, gets a
200 response with body `{status: "healthy"}` and makes no upstream
call. -/
theorem health_always_healthy_no_upstream
    (env : Env) (s : LLMService) (elapsed : String) (parsed : Option PromptRequest) :
    serveHTTP env s elapsed { method := "GET", path := "/health", parsed := parsed } =
      ({ status := 200, headers := corsHeaders, body := RespBody.statusObj "healthy" },
       []) := by
  rfl

/-- Claim C7: an `OPTIONS` request on any path is answered 204 with an
empty body and the permissive CORS headers, without invoking the
completion logic (no upstream call); and every response on every route
carries the permissive CORS headers. -/
theorem options_preflight_and_cors_everywhere
    (env : Env) (s : LLMService) (elapsed : String) :
    (∀ (path : String) (parsed : Option PromptRequest),
        serveHTTP env s elapsed { method := "OPTIONS", path := path, parsed := parsed } =
          ({ status := 204, headers := corsHeaders, body := RespBody.empty }, [])) ∧
    (∀ req : HttpRequest, (serveHTTP env s elapsed req).1.headers = corsHeaders) := by
  constructor
  · intro path parsed
    rfl
  · intro req
    unfold serveHTTP
    split
    · rfl
    · rfl

/-- Claim C4: an inbound `POST /api/complete` whose body omits `prompt`
or supplies it empty (both decode to the zero value `""`; a malformed
body is also covered) is answered 400 with an error-message body, and
no upstream call is made — `GetCompletion` is never invoked. -/
theorem missing_prompt_400_no_upstream
    (env : Env) (s : LLMService) (elapsed : String) (parsed : Option PromptRequest)
    (h : parsed = none ∨ ∃ m, parsed = some { prompt := "", model := m }) :
    (serveHTTP env s elapsed
        { method := "POST", path := "/api/complete", parsed := parsed }).1.status = 400 ∧
    (∃ msg, (serveHTTP env s elapsed
        { method := "POST", path := "/api/complete", parsed := parsed }).1.body =
          RespBody.errObj msg) ∧
    (serveHTTP env s elapsed
        { method := "POST", path := "/api/complete", parsed := parsed }).2 = [] := by
  rcases h with h | ⟨m, h⟩ <;> subst h <;>
    simp [serveHTTP, completeHandler, ShouldBindJSON]

/-- Concrete run of `missing_prompt_400_no_upstream`: a body that
supplies `prompt` as `""` is rejected with 400 and the upstream stub is
never called. -/
theorem missing_prompt_400_no_upstream_witness :
    (some { prompt := "", model := "llama2" } = (none : Option PromptRequest) ∨
      ∃ m, (some { prompt := "", model := "llama2" } : Option PromptRequest) =
        some { prompt := "", model := m }) ∧
    (serveHTTP
        { marshal := fun _ => Except.ok "REQ"
          post := fun _ _ _ => PostResult.resp 200 "RESP"
          decode := fun _ =>
            Except.ok { model := "llama2", created_at := "t", response := "ok" } }
        (NewLLMService "http://localhost:11434" "llama2") "1ms"
        { method := "POST", path := "/api/complete",
          parsed := some { prompt := "", model := "llama2" } }).1.status = 400 ∧
    (∃ msg, (serveHTTP
        { marshal := fun _ => Except.ok "REQ"
          post := fun _ _ _ => PostResult.resp 200 "RESP"
          decode := fun _ =>
            Except.ok { model := "llama2", created_at := "t", response := "ok" } }
        (NewLLMService "http://localhost:11434" "llama2") "1ms"
        { method := "POST", path := "/api/complete",
          parsed := some { prompt := "", model := "llama2" } }).1.body =
          RespBody.errObj msg) ∧
    (serveHTTP
        { marshal := fun _ => Except.ok "REQ"
          post := fun _ _ _ => PostResult.resp 200 "RESP"
          decode := fun _ =>
            Except.ok { model := "llama2", created_at := "t", response := "ok" } }
        (NewLLMService "http://localhost:11434" "llama2") "1ms"
        { method := "POST", path := "/api/complete",
          parsed := some { prompt := "", model := "llama2" } }).2 = [] :=
  ⟨Or.inr ⟨"llama2", rfl⟩,
   missing_prompt_400_no_upstream
    { marshal := fun _ => Except.ok "REQ"
      post := fun _ _ _ => PostResult.resp 200 "RESP"
      decode := fun _ =>
        Except.ok { model := "llama2", created_at := "t", response := "ok" } }
    (NewLLMService "http://localhost:11434" "llama2") "1ms"
    (some { prompt := "", model := "llama2" })
    (Or.inr ⟨"llama2", rfl⟩)⟩

/-- Claim C3: when the upstream replies with a non-200 status,
`GetCompletion` returns the error `"ollama returned status <code>: <body>"`,
the `POST /api/complete` handler answers 500 with that message, and the
message contains both the status code and the raw upstream body
verbatim (as substrings). -/
theorem upstream_non200_carries_status_and_body
    (env : Env) (s : LLMService) (elapsed : String) (pr : PromptRequest)
    (reqBody respBody : String) (status : Nat)
    (hpr : pr.prompt ≠ "")
    (hm : env.marshal { model := if pr.model = "" then s.defaultModel else pr.model,
                        prompt := pr.prompt } = Except.ok reqBody)
    (hp : env.post (s.ollamaURL ++ "/api/generate") "application/json" reqBody
            = PostResult.resp status respBody)
    (hs : status ≠ 200) :
    (GetCompletion env s pr.prompt pr.model).err =
      some ("ollama returned status " ++ toString status ++ ": " ++ respBody) ∧
    (serveHTTP env s elapsed
        { method := "POST", path := "/api/complete", parsed := some pr }).1.status = 500 ∧
    (serveHTTP env s elapsed
        { method := "POST", path := "/api/complete", parsed := some pr }).1.body =
      RespBody.errObj ("ollama returned status " ++ toString status ++ ": " ++ respBody) ∧
    (∃ a b, "ollama returned status " ++ toString status ++ ": " ++ respBody
              = a ++ toString status ++ b) ∧
    (∃ c d, "ollama returned status " ++ toString status ++ ": " ++ respBody
              = c ++ respBody ++ d) := by
  have herr : (GetCompletion env s pr.prompt pr.model).err =
      some ("ollama returned status " ++ toString status ++ ": " ++ respBody) := by
    simp [GetCompletion, hm, hp, hs]
  refine ⟨herr, ?_, ?_, ?_, ?_⟩
  · simp [serveHTTP, completeHandler, ShouldBindJSON, hpr, herr]
  · simp [serveHTTP, completeHandler, ShouldBindJSON, hpr, herr]
  · exact ⟨"ollama returned status ", ": " ++ respBody,
      String.append_assoc ("ollama returned status " ++ toString status) ": " respBody⟩
  · exact ⟨"ollama returned status " ++ toString status ++ ": ", "",
      (String.append_empty _).symm⟩

/-- Concrete run of `upstream_non200_carries_status_and_body`: an
upstream stub answering 503 with body `"overloaded"` makes the endpoint
answer 500 with an error message containing both `503` and
`"overloaded"`. -/
theorem upstream_non200_carries_status_and_body_witness :
    (GetCompletion
        { marshal := fun _ => Except.ok "REQ"
          post := fun _ _ _ => PostResult.resp 503 "overloaded"
          decode := fun _ => Except.error "unreachable" }
        (NewLLMService "http://localhost:11434" "llama2")
        (PromptRequest.prompt { prompt := "hello", model := "" })
        (PromptRequest.model { prompt := "hello", model := "" })).err =
      some ("ollama returned status " ++ toString 503 ++ ": " ++ "overloaded") ∧
    (serveHTTP
        { marshal := fun _ => Except.ok "REQ"
          post := fun _ _ _ => PostResult.resp 503 "overloaded"
          decode := fun _ => Except.error "unreachable" }
        (NewLLMService "http://localhost:11434" "llama2") "1ms"
        { method := "POST", path := "/api/complete",
          parsed := some { prompt := "hello", model := "" } }).1.status = 500 ∧
    (serveHTTP
        { marshal := fun _ => Except.ok "REQ"
          post := fun _ _ _ => PostResult.resp 503 "overloaded"
          decode := fun _ => Except.error "unreachable" }
        (NewLLMService "http://localhost:11434" "llama2") "1ms"
        { method := "POST", path := "/api/complete",
          parsed := some { prompt := "hello", model := "" } }).1.body =
      RespBody.errObj ("ollama returned status " ++ toString 503 ++ ": " ++ "overloaded") ∧
    (∃ a b, "ollama returned status " ++ toString 503 ++ ": " ++ "overloaded"
              = a ++ toString 503 ++ b) ∧
    (∃ c d, "ollama returned status " ++ toString 503 ++ ": " ++ "overloaded"
              = c ++ "overloaded" ++ d) :=
  upstream_non200_carries_status_and_body
    { marshal := fun _ => Except.ok "REQ"
      post := fun _ _ _ => PostResult.resp 503 "overloaded"
      decode := fun _ => Except.error "unreachable" }
    (NewLLMService "http://localhost:11434" "llama2") "1ms"
    { prompt := "hello", model := "" } "REQ" "overloaded" 503
    (by decide) (by rfl) (by rfl) (by decide)

/-- Claim C5: on a successful `POST /api/complete`, the outbound
envelope's `model` field equals the inbound request's `model` value
(`req.Model` in src/main.go), not the effective post-default-substitution
model — so when the caller omits `model`, the outbound field is `""`
even though the marshalled upstream request (the one in hypothesis `hm`,
whose `model` is the default when the inbound one is empty) was sent. -/
theorem outbound_model_reflects_inbound_value
    (env : Env) (s : LLMService) (elapsed : String) (pr : PromptRequest)
    (reqBody respBody : String) (r : OllamaResponse)
    (hpr : pr.prompt ≠ "")
    (hm : env.marshal { model := if pr.model = "" then s.defaultModel else pr.model,
                        prompt := pr.prompt } = Except.ok reqBody)
    (hp : env.post (s.ollamaURL ++ "/api/generate") "application/json" reqBody
            = PostResult.resp 200 respBody)
    (hd : env.decode respBody = Except.ok r) :
    (serveHTTP env s elapsed
        { method := "POST", path := "/api/complete", parsed := some pr }).1 =
      { status := 200, headers := corsHeaders
        body := RespBody.promptResp
          { response := r.response, model := pr.model, time := elapsed } } ∧
    (serveHTTP env s elapsed
        { method := "POST", path := "/api/complete", parsed := some pr }).2 =
      [{ url := s.ollamaURL ++ "/api/generate"
         contentType := "application/json"
         body := reqBody }] := by
  have hout : (GetCompletion env s pr.prompt pr.model).err = none ∧
      (GetCompletion env s pr.prompt pr.model).text = r.response ∧
      (GetCompletion env s pr.prompt pr.model).calls =
        [{ url := s.ollamaURL ++ "/api/generate"
           contentType := "application/json"
           body := reqBody }] := by
    refine ⟨?_, ?_, ?_⟩ <;> simp [GetCompletion, hm, hp, hd]
  constructor <;>
    simp [serveHTTP, completeHandler, ShouldBindJSON, hpr, hout.1, hout.2.1, hout.2.2]

/-- Concrete run of `outbound_model_reflects_inbound_value`: the caller
omits `model` (inbound `model = ""`), the request sent upstream is the
marshalling of the default model `"llama2"`, yet the 200 envelope
reports `model = ""`. -/
theorem outbound_model_reflects_inbound_value_witness :
    (serveHTTP
        { marshal := fun req => Except.ok (req.model ++ "|" ++ req.prompt)
          post := fun _ _ _ => PostResult.resp 200 "RESP"
          decode := fun _ =>
            Except.ok { model := "llama2", created_at := "t", response := "hi there" } }
        (NewLLMService "http://localhost:11434" "llama2") "1ms"
        { method := "POST", path := "/api/complete",
          parsed := some { prompt := "hello", model := "" } }).1 =
      { status := 200, headers := corsHeaders
        body := RespBody.promptResp
          { response := "hi there", model := "", time := "1ms" } } ∧
    (serveHTTP
        { marshal := fun req => Except.ok (req.model ++ "|" ++ req.prompt)
          post := fun _ _ _ => PostResult.resp 200 "RESP"
          decode := fun _ =>
            Except.ok { model := "llama2", created_at := "t", response := "hi there" } }
        (NewLLMService "http://localhost:11434" "llama2") "1ms"
        { method := "POST", path := "/api/complete",
          parsed := some { prompt := "hello", model := "" } }).2 =
      [{ url := "http://localhost:11434" ++ "/api/generate"
         contentType := "application/json"
         body := "llama2|hello" }] :=
  outbound_model_reflects_inbound_value
    { marshal := fun req => Except.ok (req.model ++ "|" ++ req.prompt)
      post := fun _ _ _ => PostResult.resp 200 "RESP"
      decode := fun _ =>
        Except.ok { model := "llama2", created_at := "t", response := "hi there" } }
    (NewLLMService "http://localhost:11434" "llama2") "1ms"
    { prompt := "hello", model := "" } "llama2|hello" "RESP"
    { model := "llama2", created_at := "t", response := "hi there" }
    (by decide) (by rfl) (by rfl) (by rfl)

/-- Claim C8: whenever `GetCompletion` returns a non-nil error — marshal
failure, transport failure, non-200 status, or decode failure — the
returned text is exactly the empty string. -/
theorem getCompletion_error_implies_empty_text
    (env : Env) (s : LLMService) (prompt model msg : String)
    (h : (GetCompletion env s prompt model).err = some msg) :
    (GetCompletion env s prompt model).text = "" := by
  cases hm : env.marshal { model := if model = "" then s.defaultModel else model,
                           prompt := prompt } with
  | error e => simp [GetCompletion, hm]
  | ok reqBody =>
      cases hp : env.post (s.ollamaURL ++ "/api/generate") "application/json" reqBody with
      | transportErr e => simp [GetCompletion, hm, hp]
      | resp statusCode body =>
          by_cases hs : statusCode = 200
          · subst hs
            cases hd : env.decode body with
            | error e => simp [GetCompletion, hm, hp, hd]
            | ok r => simp [GetCompletion, hm, hp, hd] at h
          · simp [GetCompletion, hm, hp, hs]

/-- Concrete run of `getCompletion_error_implies_empty_text`: a
transport failure yields a non-nil error and an empty returned text. -/
theorem getCompletion_error_implies_empty_text_witness :
    (GetCompletion
        { marshal := fun _ => Except.ok "REQ"
          post := fun _ _ _ => PostResult.transportErr "connection refused"
          decode := fun _ => Except.error "unreachable" }
        (NewLLMService "http://localhost:11434" "llama2") "hello" "llama2").err =
      some ("ollama request failed: " ++ "connection refused") ∧
    (GetCompletion
        { marshal := fun _ => Except.ok "REQ"
          post := fun _ _ _ => PostResult.transportErr "connection refused"
          decode := fun _ => Except.error "unreachable" }
        (NewLLMService "http://localhost:11434" "llama2") "hello" "llama2").text = "" :=
  ⟨by rfl,
   getCompletion_error_implies_empty_text
    { marshal := fun _ => Except.ok "REQ"
      post := fun _ _ _ => PostResult.transportErr "connection refused"
      decode := fun _ => Except.error "unreachable" }
    (NewLLMService "http://localhost:11434" "llama2") "hello" "llama2"
    ("ollama request failed: " ++ "connection refused") (by rfl)⟩
